import Mathlib

/-
Verification of the blink embedded control core.

Shallow embedding of the C sources:
  - the key gesture classifier (key_task in src/main/key_task.c; the same
    state machine appears verbatim in src/main/msg_queue.c and the
    component variants),
  - the double-click escalation counter (check_counter_timeout /
    increment_counter / reset_counter in src/main/pwm_task.c and
    src/components/task/pwm_task.c),
  - the actuator coordinator (servo_task, open_door_non_blocking,
    close_door, close_door_timer_callback in src/components/task/pwm_task.c),
  - the message fabric send (msg_queue_send in src/main/msg_queue.c).

Time is modelled in milliseconds: TickType_t values are Nat and
pdMS_TO_TICKS is the identity (a 1000 Hz tick); every comparison the code
performs is preserved under this choice.  Machine counters that are u8 in
the C source are modelled as Nat reduced mod 256 where they are
incremented.
-/

set_option maxRecDepth 100000

namespace Blink

/-! Constants from key_task.c, pwm_task.c and board.h. -/

def KEY_SCAN_INTERVAL_MS : Nat := 10
def LONG_PRESS_TIME_MS : Nat := 1000
def DOUBLE_CLICK_INTERVAL_MS : Nat := 300
def CLICK_MAX_TIME_MS : Nat := 500
def DOUBLE_CLICK_TRIGGER_COUNT : Nat := 2
/-- reset timeout of the escalation counter in src/main/pwm_task.c -/
def DOUBLE_CLICK_RESET_TIMEOUT_MS_MAIN : Nat := 3000
/-- reset timeout of the escalation counter in src/components/task/pwm_task.c -/
def DOUBLE_CLICK_RESET_TIMEOUT_MS_SERVO : Nat := 2000
def OPEN_TIME : Nat := 2000
def SERVO_ANGLE_POS1 : Nat := 135
def SERVO_ANGLE_POS2 : Nat := 80

/-! The gesture classifier state machine (key_task). -/

inductive KeyEvent
  | singleClick
  | doubleClick
  | longPress
deriving DecidableEq, Repr

inductive KeyMode
  | idle
  | pressed
  | waitSecond
  | doublePressed
deriving DecidableEq, Repr

/-- Logical consumer channels of the message fabric. -/
inductive QueueId
  | led
  | pwm
  | wifi
  | mqtt
deriving DecidableEq, Repr

/-- One message emission by the classifier: at which tick, to which queue,
which event. -/
structure Emit where
  tick : Nat
  queue : QueueId
  event : KeyEvent
deriving DecidableEq, Repr

/-- The local state of key_task: the state-machine mode together with the
locals press_start_tick, release_tick, long_press_sent and last_key_level. -/
structure KeyState where
  mode : KeyMode
  press_start : Nat
  release_tick : Nat
  long_press_sent : Bool
  last_level : Nat
deriving DecidableEq, Repr

/-- Initial locals of key_task: KEY_STATE_IDLE with last_key_level = 1. -/
def initKeyState : KeyState :=
  ⟨KeyMode.idle, 0, 0, false, 1⟩

/-- One iteration of the key_task scan loop, given the sampled gpio level
and the current tick.  pwmWired models the pwm_queue != NULL guard of the
DOUBLE_PRESSED branch. -/
def key_step (pwmWired : Bool) (s : KeyState) (level : Nat) (now : Nat) :
    KeyState × List Emit :=
  match s.mode with
  | KeyMode.idle =>
      if level = 0 ∧ s.last_level = 1 then
        ({ s with mode := KeyMode.pressed, press_start := now,
                  long_press_sent := false, last_level := level }, [])
      else
        ({ s with last_level := level }, [])
  | KeyMode.pressed =>
      if level = 1 ∧ s.last_level = 0 then
        if LONG_PRESS_TIME_MS ≤ now - s.press_start then
          ({ s with mode := KeyMode.idle, last_level := level }, [])
        else
          ({ s with mode := KeyMode.waitSecond, release_tick := now,
                    last_level := level }, [])
      else if level = 0 then
        if LONG_PRESS_TIME_MS ≤ now - s.press_start ∧ s.long_press_sent = false then
          ({ s with long_press_sent := true, last_level := level },
           [⟨now, QueueId.led, KeyEvent.longPress⟩])
        else
          ({ s with last_level := level }, [])
      else
        ({ s with last_level := level }, [])
  | KeyMode.waitSecond =>
      if level = 0 ∧ s.last_level = 1 then
        if now - s.release_tick ≤ DOUBLE_CLICK_INTERVAL_MS then
          ({ s with mode := KeyMode.doublePressed, press_start := now,
                    last_level := level }, [])
        else
          ({ s with mode := KeyMode.pressed, press_start := now,
                    long_press_sent := false, last_level := level },
           [⟨now, QueueId.led, KeyEvent.singleClick⟩])
      else if level = 1 then
        if DOUBLE_CLICK_INTERVAL_MS < now - s.release_tick then
          ({ s with mode := KeyMode.idle, last_level := level },
           [⟨now, QueueId.led, KeyEvent.singleClick⟩])
        else
          ({ s with last_level := level }, [])
      else
        ({ s with last_level := level }, [])
  | KeyMode.doublePressed =>
      if level = 1 ∧ s.last_level = 0 then
        ({ s with mode := KeyMode.idle, last_level := level },
         if pwmWired then [⟨now, QueueId.pwm, KeyEvent.doubleClick⟩] else [])
      else
        ({ s with last_level := level }, [])

/-- Run the classifier over a list of samples, each a pair
(tick, gpio level), collecting every emitted message. -/
def key_run (pwmWired : Bool) (s : KeyState) (inputs : List (Nat × Nat)) :
    KeyState × List Emit :=
  match inputs with
  | [] => (s, [])
  | (now, level) :: rest =>
      let r := key_step pwmWired s level now
      let rr := key_run pwmWired r.1 rest
      (rr.1, r.2 ++ rr.2)

/-- Sample the level function every KEY_SCAN_INTERVAL_MS starting at tick 0,
for n samples, as the fixed-period scan loop does. -/
def sampleTrace (levelAt : Nat → Nat) (n : Nat) : List (Nat × Nat) :=
  (List.range n).map
    (fun i => (KEY_SCAN_INTERVAL_MS * i, levelAt (KEY_SCAN_INTERVAL_MS * i)))

/-- Input level (active low) for the double-click scenario of C5:
press at 0 ms, release at 100 ms, press at 150 ms, release at 250 ms. -/
def levelDouble (t : Nat) : Nat :=
  if t < 100 then 0 else if t < 150 then 1 else if t < 250 then 0 else 1

/-- Input level for the single-click scenario of C6:
press at 0 ms, release at 100 ms, no further press. -/
def levelSingle (t : Nat) : Nat :=
  if t < 100 then 0 else 1

/-- Input level for the long-press scenario of C7:
held from 0 ms through 1000 ms, released afterwards. -/
def levelLong (t : Nat) : Nat :=
  if t ≤ 1000 then 0 else 1

/-- Claim C5: for the trace press at 0 ms, release at 100 ms, press at
150 ms, release at 250 ms, the classifier emits exactly one DoubleClick, at
the 250 ms release, routed to the pwm channel, and no SingleClick. -/
theorem double_click_trace_emits_one_double_click :
    (key_run true initKeyState (sampleTrace levelDouble 60)).2 =
      [⟨250, QueueId.pwm, KeyEvent.doubleClick⟩] ∧
    (key_run true initKeyState (sampleTrace levelDouble 60)).1.mode = KeyMode.idle := by
  decide

/-- Claim C6: for the trace press at 0 ms, release at 100 ms and no further
press, the classifier emits exactly one SingleClick, at the first poll tick
after the 300 ms window elapses (410 ms), routed to the led channel, and
returns to Idle. -/
theorem single_click_trace_emits_one_single_click :
    (key_run true initKeyState (sampleTrace levelSingle 80)).2 =
      [⟨410, QueueId.led, KeyEvent.singleClick⟩] ∧
    (key_run true initKeyState (sampleTrace levelSingle 80)).1.mode = KeyMode.idle := by
  decide

/-- Claim C7: for a continuous press held from 0 ms to 1000 ms, the
classifier emits exactly one LongPress, at the 1000 ms tick, and the
subsequent release returns it to Idle with no SingleClick. -/
theorem long_press_trace_emits_one_long_press :
    (key_run true initKeyState (sampleTrace levelLong 120)).2 =
      [⟨1000, QueueId.led, KeyEvent.longPress⟩] ∧
    (key_run true initKeyState (sampleTrace levelLong 120)).1.mode = KeyMode.idle := by
  decide

/-! Counting LongPress emissions, for the at-most-one-LongPress invariant. -/

def isLongPress (e : Emit) : Bool :=
  match e.event with
  | KeyEvent.longPress => true
  | _ => false

def countLongPress : List Emit → Nat
  | [] => 0
  | e :: es => (if isLongPress e then 1 else 0) + countLongPress es

lemma countLongPress_append (a b : List Emit) :
    countLongPress (a ++ b) = countLongPress a + countLongPress b := by
  induction a with
  | nil => simp [countLongPress]
  | cons e es ih => simp [countLongPress, ih]; omega

/-- Properties of a single scan step on a pressed (level 0) sample:
it emits at most one LongPress, the stored last level becomes 0, an
emission latches long_press_sent, and with the latch already set (and no
falling edge) nothing is emitted and the latch stays set. -/
lemma key_step_pressed_sample (w : Bool) (s : KeyState) (t : Nat) :
    countLongPress (key_step w s 0 t).2 ≤ 1 ∧
    (key_step w s 0 t).1.last_level = 0 ∧
    (1 ≤ countLongPress (key_step w s 0 t).2 →
      (key_step w s 0 t).1.long_press_sent = true) ∧
    (s.last_level ≠ 1 → s.long_press_sent = true →
      countLongPress (key_step w s 0 t).2 = 0 ∧
      (key_step w s 0 t).1.long_press_sent = true) := by
  obtain ⟨m, ps, rt, lps, ll⟩ := s
  cases m <;>
    simp only [key_step] <;>
    split_ifs <;>
    simp_all [countLongPress, isLongPress]

/-- While the key stays sampled low and the stored last level is not 1, the
run emits no LongPress once the latch is set, and at most one otherwise. -/
lemma countLongPress_run_le (w : Bool) (L : List (Nat × Nat)) :
    ∀ s : KeyState, s.last_level ≠ 1 → (∀ p ∈ L, p.2 = 0) →
      countLongPress (key_run w s L).2 ≤
        (if s.long_press_sent then 0 else 1) := by
  induction L with
  | nil =>
      intro s _ _
      simp [key_run, countLongPress]
  | cons p rest ih =>
      intro s hlast hall
      obtain ⟨t, l⟩ := p
      have hl : l = 0 := hall (t, l) (List.mem_cons_self _ _)
      subst hl
      have hrest : ∀ q ∈ rest, q.2 = 0 := fun q hq => hall q (List.mem_cons_of_mem _ hq)
      obtain ⟨hle1, hlast0, hlatch, hquiet⟩ := key_step_pressed_sample w s t
      have hne : (key_step w s 0 t).1.last_level ≠ 1 := by simp [hlast0]
      have htail := ih (key_step w s 0 t).1 hne hrest
      simp only [key_run, countLongPress_append]
      cases hs : s.long_press_sent with
      | true =>
          obtain ⟨hc0, hs1⟩ := hquiet hlast hs
          rw [hs1] at htail
          simp at htail ⊢
          omega
      | false =>
          by_cases hc : 1 ≤ countLongPress (key_step w s 0 t).2
          · have hs1 := hlatch hc
            rw [hs1] at htail
            simp at htail ⊢
            omega
          · have hz : countLongPress (key_step w s 0 t).2 = 0 := by omega
            have htail1 : countLongPress (key_run w (key_step w s 0 t).1 rest).2 ≤ 1 := by
              rcases h : (key_step w s 0 t).1.long_press_sent <;>
                rw [h] at htail <;> simp at htail <;> omega
            simp
            omega

/-- Claim C4: over any all-pressed sample run (one continuous press), from
any classifier state, at most one LongPress is emitted. -/
theorem at_most_one_long_press_per_press (w : Bool) (s : KeyState)
    (L : List (Nat × Nat)) (hall : ∀ p ∈ L, p.2 = 0) :
    countLongPress (key_run w s L).2 ≤ 1 := by
  cases L with
  | nil => simp [key_run, countLongPress]
  | cons p rest =>
      obtain ⟨t, l⟩ := p
      have hl : l = 0 := hall (t, l) (List.mem_cons_self _ _)
      subst hl
      have hrest : ∀ q ∈ rest, q.2 = 0 := fun q hq => hall q (List.mem_cons_of_mem _ hq)
      obtain ⟨hle1, hlast0, hlatch, _⟩ := key_step_pressed_sample w s t
      have hne : (key_step w s 0 t).1.last_level ≠ 1 := by simp [hlast0]
      have htail := countLongPress_run_le w rest (key_step w s 0 t).1 hne hrest
      simp only [key_run, countLongPress_append]
      by_cases hc : 1 ≤ countLongPress (key_step w s 0 t).2
      · have hs1 := hlatch hc
        rw [hs1] at htail
        simp at htail
        omega
      · have hz : countLongPress (key_step w s 0 t).2 = 0 := by omega
        have htail1 : countLongPress (key_run w (key_step w s 0 t).1 rest).2 ≤ 1 := by
          rcases h : (key_step w s 0 t).1.long_press_sent <;>
            rw [h] at htail <;> simp at htail <;> omega
        omega

/-- Witness for C4 on a concrete held-down run. -/
theorem at_most_one_long_press_per_press_witness :
    countLongPress
      (key_run true initKeyState
        [(0, 0), (500, 0), (1000, 0), (1500, 0), (2000, 0)]).2 ≤ 1 :=
  at_most_one_long_press_per_press true initKeyState
    [(0, 0), (500, 0), (1000, 0), (1500, 0), (2000, 0)] (by decide)

/-! Claim C10: the DoublePressed state is silent until the rising edge. -/

lemma key_run_append (w : Bool) (L1 L2 : List (Nat × Nat)) :
    ∀ s : KeyState,
      key_run w s (L1 ++ L2) =
        ((key_run w (key_run w s L1).1 L2).1,
         (key_run w s L1).2 ++ (key_run w (key_run w s L1).1 L2).2) := by
  induction L1 with
  | nil => intro s; simp [key_run]
  | cons p rest ih =>
      intro s
      obtain ⟨t, l⟩ := p
      simp [key_run, ih, List.append_assoc]

lemma double_pressed_hold_silent (w : Bool) (ts : List Nat) :
    ∀ s : KeyState, s.mode = KeyMode.doublePressed → s.last_level = 0 →
      key_run w s (ts.map fun t => (t, 0)) = (s, []) := by
  induction ts with
  | nil => intro s _ _; simp [key_run]
  | cons t rest ih =>
      intro s hm hl
      obtain ⟨m, ps, rt, lps, ll⟩ := s
      simp only at hm hl
      subst hm
      subst hl
      have hstep : key_step w ⟨KeyMode.doublePressed, ps, rt, lps, 0⟩ 0 t =
          (⟨KeyMode.doublePressed, ps, rt, lps, 0⟩, []) := by
        simp [key_step]
      simp only [List.map_cons, key_run, hstep]
      rw [ih ⟨KeyMode.doublePressed, ps, rt, lps, 0⟩ rfl rfl]
      simp

/-- Claim C10: while in DoublePressed, any number of further held samples
(however long the second press is held) emits nothing — in particular no
LongPress — and the release then emits exactly one DoubleClick to the pwm
channel and returns to Idle. -/
theorem double_pressed_silent_until_release (s : KeyState) (ts : List Nat)
    (t2 : Nat) (hm : s.mode = KeyMode.doublePressed) (hl : s.last_level = 0) :
    (key_run true s ((ts.map fun t => (t, 0)) ++ [(t2, 1)])).2 =
      [⟨t2, QueueId.pwm, KeyEvent.doubleClick⟩] ∧
    (key_run true s ((ts.map fun t => (t, 0)) ++ [(t2, 1)])).1.mode =
      KeyMode.idle := by
  rw [key_run_append, double_pressed_hold_silent true ts s hm hl]
  obtain ⟨m, ps, rt, lps, ll⟩ := s
  simp only at hm hl
  subst hm
  subst hl
  simp [key_run, key_step]

/-- Witness for C10: second press held from 160 ms to 1600 ms (longer than
the long-press threshold), released at 1600 ms. -/
theorem double_pressed_silent_until_release_witness :
    (key_run true ⟨KeyMode.doublePressed, 150, 100, false, 0⟩
        (([160, 400, 900, 1590].map fun t => (t, 0)) ++ [(1600, 1)])).2 =
      [⟨1600, QueueId.pwm, KeyEvent.doubleClick⟩] ∧
    (key_run true ⟨KeyMode.doublePressed, 150, 100, false, 0⟩
        (([160, 400, 900, 1590].map fun t => (t, 0)) ++ [(1600, 1)])).1.mode =
      KeyMode.idle :=
  double_pressed_silent_until_release ⟨KeyMode.doublePressed, 150, 100, false, 0⟩
    [160, 400, 900, 1590] 1600 rfl rfl

/-! The double-click escalation counter (pwm_task.c / servo_task). -/

/-- double_click_counter_t: count is a u8 in the C source, last_tick a
tick count. -/
structure DCCounter where
  count : Nat
  last_tick : Nat
deriving DecidableEq, Repr

/-- check_counter_timeout: false while the counter is zero, otherwise true
exactly when the elapsed ticks since last_tick reach the reset timeout. -/
def check_counter_timeout (timeout : Nat) (c : DCCounter) (now : Nat) : Bool :=
  if c.count = 0 then false
  else if timeout ≤ now - c.last_tick then true else false

/-- increment_counter: count++ (u8 wraparound) and stamp the current tick. -/
def increment_counter (c : DCCounter) (now : Nat) : DCCounter :=
  ⟨(c.count + 1) % 256, now⟩

/-- reset_counter: both fields back to zero. -/
def reset_counter : DCCounter := ⟨0, 0⟩

/-- Result of processing one DoubleClick message through the counter block:
the new counter, whether a ClearCredentials command was sent to the wifi
channel, and the count value right after the increment. -/
structure DCResult where
  counter : DCCounter
  sentClear : Bool
  countAfterInc : Nat
deriving DecidableEq, Repr

/-- The counter block run on one KEY_EVENT_DOUBLE_CLICK message: check the
timeout (reset if stale), increment, and when the count reaches
DOUBLE_CLICK_TRIGGER_COUNT send WIFI_CMD_CLEAR_CREDENTIALS and reset. -/
def handle_double_click (timeout : Nat) (c : DCCounter) (now : Nat) : DCResult :=
  let c1 := if check_counter_timeout timeout c now then reset_counter else c
  let c2 := increment_counter c1 now
  if DOUBLE_CLICK_TRIGGER_COUNT ≤ c2.count then ⟨reset_counter, true, c2.count⟩
  else ⟨c2, false, c2.count⟩

/-- The DOUBLE_CLICK branch of pwm_task in src/main/pwm_task.c: the whole
counter block is guarded by wifi_queue != NULL (wifiWired). -/
def pwm_handle_double_click (wifiWired : Bool) (c : DCCounter) (now : Nat) :
    DCResult :=
  if wifiWired then handle_double_click DOUBLE_CLICK_RESET_TIMEOUT_MS_MAIN c now
  else ⟨c, false, c.count⟩

/-- Claim C1: with the wifi channel wired, two DoubleClick messages whose
gap is below the reset timeout make the counter reach 2 on the second one,
send exactly one ClearCredentials (none on the first, one on the second),
and leave the counter reset to zero. -/
theorem escalation_on_second_fast_double_click (t1 t2 : Nat)
    (hgap : t2 - t1 < DOUBLE_CLICK_RESET_TIMEOUT_MS_MAIN) :
    (pwm_handle_double_click true ⟨0, 0⟩ t1).sentClear = false ∧
    (pwm_handle_double_click true
      (pwm_handle_double_click true ⟨0, 0⟩ t1).counter t2).countAfterInc = 2 ∧
    (pwm_handle_double_click true
      (pwm_handle_double_click true ⟨0, 0⟩ t1).counter t2).sentClear = true ∧
    (pwm_handle_double_click true
      (pwm_handle_double_click true ⟨0, 0⟩ t1).counter t2).counter = ⟨0, 0⟩ := by
  have h1 : pwm_handle_double_click true ⟨0, 0⟩ t1 = ⟨⟨1, t1⟩, false, 1⟩ := rfl
  rw [h1]
  have hne : ¬ (DOUBLE_CLICK_RESET_TIMEOUT_MS_MAIN ≤ t2 - t1) := Nat.not_le.mpr hgap
  simp [pwm_handle_double_click, handle_double_click, check_counter_timeout,
    increment_counter, reset_counter, DOUBLE_CLICK_TRIGGER_COUNT, hne]

/-- Witness for C1 at the spec scenario: the two DoubleClicks 500 ms apart. -/
theorem escalation_on_second_fast_double_click_witness :
    (pwm_handle_double_click true ⟨0, 0⟩ 1000).sentClear = false ∧
    (pwm_handle_double_click true
      (pwm_handle_double_click true ⟨0, 0⟩ 1000).counter 1500).countAfterInc = 2 ∧
    (pwm_handle_double_click true
      (pwm_handle_double_click true ⟨0, 0⟩ 1000).counter 1500).sentClear = true ∧
    (pwm_handle_double_click true
      (pwm_handle_double_click true ⟨0, 0⟩ 1000).counter 1500).counter = ⟨0, 0⟩ :=
  escalation_on_second_fast_double_click 1000 1500 (by decide)

/-- Claim C8: a DoubleClick after a stale gap (at least the reset timeout
since the previous counted one) resets the counter before incrementing, so
it ends at 1 and no ClearCredentials is sent. -/
theorem stale_gap_resets_counter_before_increment (timeout : Nat)
    (c : DCCounter) (now : Nat) (hc : 0 < c.count)
    (hstale : timeout ≤ now - c.last_tick) :
    handle_double_click timeout c now = ⟨⟨1, now⟩, false, 1⟩ := by
  have hck : check_counter_timeout timeout c now = true := by
    unfold check_counter_timeout
    rw [if_neg (Nat.pos_iff_ne_zero.mp hc), if_pos hstale]
  simp [handle_double_click, hck, increment_counter, reset_counter,
    DOUBLE_CLICK_TRIGGER_COUNT]

/-- Witness for C8: one counted DoubleClick at tick 0, the next at the
reset timeout. -/
theorem stale_gap_resets_counter_before_increment_witness :
    handle_double_click DOUBLE_CLICK_RESET_TIMEOUT_MS_MAIN ⟨1, 0⟩ 3000 =
      ⟨⟨1, 3000⟩, false, 1⟩ :=
  stale_gap_resets_counter_before_increment DOUBLE_CLICK_RESET_TIMEOUT_MS_MAIN
    ⟨1, 0⟩ 3000 (by decide) (by decide)

/-! The actuator coordinator (servo_task in src/components/task/pwm_task.c). -/

inductive PwmEvent
  | openDoor
  | setAngle
deriving DecidableEq, Repr

inductive MqttCmd
  | doorOn
  | doorOff
deriving DecidableEq, Repr

inductive WifiCmd
  | clearCredentials
deriving DecidableEq, Repr

/-- The msg_t shapes servo_task distinguishes. -/
inductive ServoMsg
  | key (event : KeyEvent)
  | pwm (event : PwmEvent) (angle : Nat)
  | mqtt (cmd : MqttCmd)
  | unknown
deriving DecidableEq, Repr

/-- Observable actions of servo_task: servo moves, MQTT door-state
publications, and sends to the wifi channel. -/
inductive ServoOut
  | setServoAngle (angle : Nat)
  | publishDoorState (isOpen : Bool)
  | sendWifi (cmd : WifiCmd)
deriving DecidableEq, Repr

/-- State owned by servo_task: s_door_open, the auto-close one-shot timer
(some deadline when armed), and the double-click counter. -/
structure ServoState where
  door_open : Bool
  timer : Option Nat
  counter : DCCounter
deriving DecidableEq, Repr

/-- open_door_non_blocking: move to SERVO_ANGLE_POS2, mark open, publish
the open state, and restart the close-door timer for OPEN_TIME (stop,
change period, start — re-arming replaces any prior deadline). -/
def open_door_non_blocking (s : ServoState) (now : Nat) :
    ServoState × List ServoOut :=
  ({ s with door_open := true, timer := some (now + OPEN_TIME) },
   [ServoOut.setServoAngle SERVO_ANGLE_POS2, ServoOut.publishDoorState true])

/-- close_door: stop the auto-close timer, then, only if the door is open,
move to SERVO_ANGLE_POS1 and publish the closed state. -/
def close_door (s : ServoState) : ServoState × List ServoOut :=
  if s.door_open then
    ({ s with door_open := false, timer := none },
     [ServoOut.setServoAngle SERVO_ANGLE_POS1, ServoOut.publishDoorState false])
  else
    ({ s with timer := none }, [])

/-- close_door_timer_callback: on expiry of the one-shot timer (which is
then spent), if the door is still open, move to SERVO_ANGLE_POS1 and
publish the closed state. -/
def close_door_timer_callback (s : ServoState) : ServoState × List ServoOut :=
  if s.door_open then
    ({ s with door_open := false, timer := none },
     [ServoOut.setServoAngle SERVO_ANGLE_POS1, ServoOut.publishDoorState false])
  else
    ({ s with timer := none }, [])

/-- The body of the servo_task receive loop for one message. -/
def servo_handle_msg (s : ServoState) (m : ServoMsg) (now : Nat) :
    ServoState × List ServoOut :=
  match m with
  | ServoMsg.key KeyEvent.doubleClick =>
      let r := handle_double_click DOUBLE_CLICK_RESET_TIMEOUT_MS_SERVO s.counter now
      ({ s with counter := r.counter },
       if r.sentClear then [ServoOut.sendWifi WifiCmd.clearCredentials] else [])
  | ServoMsg.key KeyEvent.singleClick => open_door_non_blocking s now
  | ServoMsg.key KeyEvent.longPress => (s, [])
  | ServoMsg.pwm PwmEvent.openDoor _ => open_door_non_blocking s now
  | ServoMsg.pwm PwmEvent.setAngle a => (s, [ServoOut.setServoAngle (min a 180)])
  | ServoMsg.mqtt MqttCmd.doorOn => open_door_non_blocking s now
  | ServoMsg.mqtt MqttCmd.doorOff => close_door s
  | ServoMsg.unknown => (s, [])

/-- Counterexample for C2: with the door closed, a DoubleClick message does
not open the door, does not arm the revert timer, and publishes nothing —
it only feeds the escalation counter. -/
theorem double_click_does_not_open_door :
    (servo_handle_msg ⟨false, none, ⟨0, 0⟩⟩ (ServoMsg.key KeyEvent.doubleClick) 0).1.door_open
      = false ∧
    (servo_handle_msg ⟨false, none, ⟨0, 0⟩⟩ (ServoMsg.key KeyEvent.doubleClick) 0).1.timer
      = none ∧
    (servo_handle_msg ⟨false, none, ⟨0, 0⟩⟩ (ServoMsg.key KeyEvent.doubleClick) 0).2
      = [] := by
  decide

/-- Claim C2 (amended): every trigger message that opens the door — a
SingleClick gesture message, a Bluetooth open command, or an MQTT door-on
command — moves the actuator to the open position, publishes the open
state-changed notification, and (re-)arms the revert timer with deadline
now + OPEN_TIME, also when the door is already open. -/
theorem trigger_message_opens_and_arms_timer (s : ServoState) (now : Nat)
    (m : ServoMsg)
    (hm : m = ServoMsg.key KeyEvent.singleClick ∨
      (∃ a, m = ServoMsg.pwm PwmEvent.openDoor a) ∨
      m = ServoMsg.mqtt MqttCmd.doorOn) :
    (servo_handle_msg s m now).1.door_open = true ∧
    (servo_handle_msg s m now).1.timer = some (now + OPEN_TIME) ∧
    ServoOut.publishDoorState true ∈ (servo_handle_msg s m now).2 ∧
    ServoOut.setServoAngle SERVO_ANGLE_POS2 ∈ (servo_handle_msg s m now).2 := by
  rcases hm with h | ⟨a, h⟩ | h <;> subst h <;>
    simp [servo_handle_msg, open_door_non_blocking]

/-- Witness for the amended C2: an MQTT door-on command while the door is
already open re-arms the timer for the new deadline. -/
theorem trigger_message_opens_and_arms_timer_witness :
    (servo_handle_msg ⟨true, some 2500, ⟨0, 0⟩⟩ (ServoMsg.mqtt MqttCmd.doorOn) 700).1.door_open
      = true ∧
    (servo_handle_msg ⟨true, some 2500, ⟨0, 0⟩⟩ (ServoMsg.mqtt MqttCmd.doorOn) 700).1.timer
      = some (700 + OPEN_TIME) ∧
    ServoOut.publishDoorState true ∈
      (servo_handle_msg ⟨true, some 2500, ⟨0, 0⟩⟩ (ServoMsg.mqtt MqttCmd.doorOn) 700).2 ∧
    ServoOut.setServoAngle SERVO_ANGLE_POS2 ∈
      (servo_handle_msg ⟨true, some 2500, ⟨0, 0⟩⟩ (ServoMsg.mqtt MqttCmd.doorOn) 700).2 :=
  trigger_message_opens_and_arms_timer ⟨true, some 2500, ⟨0, 0⟩⟩ 700
    (ServoMsg.mqtt MqttCmd.doorOn) (Or.inr (Or.inr rfl))

/-- Number of closed-state notifications in an output list. -/
def countClosedPublish : List ServoOut → Nat
  | [] => 0
  | ServoOut.publishDoorState false :: es => 1 + countClosedPublish es
  | _ :: es => countClosedPublish es

/-- Claim C3: after an open arms the revert deadline, an explicit Close
cancels the timer and a timer expiry afterwards publishes nothing; with no
Close, the expiry publishes exactly one closed notification, moves the
actuator to the closed position, and a further expiry publishes nothing. -/
theorem revert_timer_close_semantics (s : ServoState) (now : Nat) :
    ((open_door_non_blocking s now).1.timer = some (now + OPEN_TIME)) ∧
    ((close_door (open_door_non_blocking s now).1).1.timer = none) ∧
    ((close_door_timer_callback
        (close_door (open_door_non_blocking s now).1).1).2 = []) ∧
    (countClosedPublish
        (close_door_timer_callback (open_door_non_blocking s now).1).2 = 1) ∧
    (ServoOut.setServoAngle SERVO_ANGLE_POS1 ∈
        (close_door_timer_callback (open_door_non_blocking s now).1).2) ∧
    ((close_door_timer_callback (open_door_non_blocking s now).1).1.door_open
        = false) ∧
    ((close_door_timer_callback
        (close_door_timer_callback (open_door_non_blocking s now).1).1).2 = []) := by
  simp [open_door_non_blocking, close_door, close_door_timer_callback,
    countClosedPublish]

/-! The message fabric send (msg_queue_send in src/main/msg_queue.c). -/

/-- Modelled from the spec: the underlying FreeRTOS enqueue (xQueueSend)
is not part of src; per the spec a channel is a bounded FIFO of fixed
capacity, and a send to a channel that is already at capacity and stays at
capacity for the whole timeout window returns failure on expiry with the
message dropped. msg_queue_send (src/main/msg_queue.c) forwards the
message to the queue and maps that result to a Bool. -/
def msg_queue_send (cap : Nat) (q : List Nat) (m : Nat) : Bool × List Nat :=
  if q.length < cap then (true, q ++ [m]) else (false, q)

/-- Claim C9: a send to a channel at full capacity throughout the timeout
returns false and leaves the channel unchanged — the message is dropped,
not enqueued, and the fabric does not retry. -/
theorem send_to_full_channel_fails_and_drops (cap : Nat) (q : List Nat)
    (m : Nat) (hfull : q.length = cap) :
    msg_queue_send cap q m = (false, q) := by
  unfold msg_queue_send
  rw [if_neg (by omega)]

/-- Witness for C9: a capacity-2 channel holding two messages. -/
theorem send_to_full_channel_fails_and_drops_witness :
    msg_queue_send 2 [7, 9] 5 = (false, [7, 9]) :=
  send_to_full_channel_fails_and_drops 2 [7, 9] 5 (by decide)

end Blink
